import Mathlib

/-!
Shallow embedding of the SVMPCA notebook (src/SVMPCA.ipynb).

The notebook is a linear pipeline over the MNIST matrix:
standardize (`StandardScaler`), reduce (`PCA(n_components=100)`),
sample (`np.random.choice`), split (`train_test_split`), classify
(`SVC(kernel="rbf", C=5, gamma=0.05, random_state=42)`), evaluate
(`accuracy_score`), and reconstruct (`pca.inverse_transform`).

Machine floats are modelled by exact rationals.  Randomness that the
library draws from explicit or ambient generator state is modelled by
explicit parameters: the output of the unseeded global generator used by
`np.random.choice` is a list of chosen indices, and the shuffle
determined by `random_state=42` inside `train_test_split` is a
permutation of the row indices.  Results of external numerical solvers
(the SVD inside `PCA.fit`, the SMO solver inside `SVC.fit`) are likewise
explicit parameters, constrained only by their documented shapes.
-/

/-- A data matrix: a list of rows, each a list of rational feature values. -/
abbrev Mat : Type := List (List ℚ)

/-- Width of a matrix, as numpy infers it: the length of the first row. -/
def matWidth (X : Mat) : Nat := (X.headD []).length

/-- Dot product of two equally long vectors, `(l₁ * l₂).sum`. -/
def dotProduct (l₁ l₂ : List ℚ) : ℚ := (List.zipWith (· * ·) l₁ l₂).sum

/-- Column `j` of a matrix (missing entries read as 0, as rows are uniform
in every use). -/
def matCol (X : Mat) (j : Nat) : List ℚ := X.map (fun r => r.getD j 0)

/-- Arithmetic mean of a list of rationals; empty list gives `0/0 = 0`. -/
def listMean (l : List ℚ) : ℚ := l.sum / l.length

/-- Population variance (`ddof = 0`, as `StandardScaler` uses). -/
def listVar (l : List ℚ) : ℚ :=
  (l.map (fun x => (x - listMean l) ^ 2)).sum / l.length

/-!
### Evaluator: `sklearn.metrics.accuracy_score` (notebook lines 58, 90, 97, 104)

`accuracy_score(y_true, y_pred)` is `np.average(y_true == y_pred)`: the
mean of the elementwise equality indicator vector.  Inputs of unequal
length are rejected (`_check_targets` raises), modelled by `none`.
-/

/-- Mean of the elementwise equality indicator, the way the library
computes the score.  Unequal lengths fail with `none`. -/
def accuracy_score (y_true y_pred : List String) : Option ℚ :=
  if y_true.length = y_pred.length then
    some (((List.zipWith (fun a b => if a = b then (1 : ℚ) else 0) y_true y_pred).sum)
          / y_true.length)
  else none

/-- Number of positions where the two label vectors agree. -/
def matchCount (y_true y_pred : List String) : Nat :=
  ((y_true.zip y_pred).filter (fun p => p.1 = p.2)).length

/-!
### Sampler / splitter (notebook lines 43-48, 76-79)

`np.random.choice(n, sample_size, replace=False)` draws from the global
numpy generator, which the notebook never seeds; its output is modelled
as an explicit index list `choiceIdx` satisfying `validChoice`.

`train_test_split(X, y, test_size=0.2, random_state=42)` shuffles
`range n` with a permutation determined by the seed and `n` (modelled as
the explicit parameter `perm`), takes the first `ceil(0.2 * n)` shuffled
indices as the test set and the rest as the training set.
-/

/-- The index list a without-replacement draw of `k` out of `n` can produce:
`k` distinct indices below `n`. -/
def validChoice (n k : Nat) (idx : List Nat) : Prop :=
  idx.length = k ∧ idx.Nodup ∧ ∀ i ∈ idx, i < n

instance (n k : Nat) (idx : List Nat) : Decidable (validChoice n k idx) := by
  unfold validChoice; infer_instance

/-- Number of test rows for `test_size=0.2`: `ceil(n / 5)`. -/
def nTest (n : Nat) : Nat := (n + 4) / 5

/-- Test indices: the first `nTest n` entries of the shuffled index list. -/
def test_indices (n : Nat) (perm : List Nat) : List Nat := perm.take (nTest n)

/-- Train indices: the remaining entries of the shuffled index list. -/
def train_indices (n : Nat) (perm : List Nat) : List Nat := perm.drop (nTest n)

/-- The split, `train_test_split` with `test_size = 0.2`: returns
`(X_train, X_test, y_train, y_test)`.  `perm` is the shuffle of
`range X.length` determined by `random_state`. -/
def train_test_split {α β : Type} [Inhabited α] [Inhabited β]
    (X : List α) (y : List β) (perm : List Nat) :
    List α × List α × List β × List β :=
  let n := X.length
  ((train_indices n perm).map (fun i => X.getD i default),
   (test_indices n perm).map (fun i => X.getD i default),
   (train_indices n perm).map (fun i => y.getD i default),
   (test_indices n perm).map (fun i => y.getD i default))

/-- The sampling-and-splitting stage (notebook lines 43-48): fancy-index
the data and labels by the drawn indices, then split.  `choiceIdx` is
the unseeded global generator's draw; `perm` is the seed-42 shuffle. -/
def sampleAndSplitStage (X : Mat) (y : List String)
    (choiceIdx : List Nat) (perm : List Nat) :
    Mat × Mat × List String × List String :=
  let data_sampled := choiceIdx.map (fun i => X.getD i default)
  let target_sampled := choiceIdx.map (fun i => y.getD i default)
  train_test_split data_sampled target_sampled perm

/-!
### Normalizer: `StandardScaler` (notebook lines 34-35)

`fit` stores the per-column mean and the per-column scale; `transform`
maps entry `x_ij` to `(x_ij - mean_j) / scale_j`.  The library guards
zero variance explicitly (`_handle_zeros_in_scale` replaces a zero scale
by 1 so constant features come out as 0 instead of NaN).  The float
scale is `sqrt(var_j)`, which is zero exactly when `var_j` is zero and
otherwise positive; since everything proved here depends only on the
(non)zeroness of the scale and on the constant-column output value, the
scale is modelled by the variance itself, guarded the same way.
-/

/-- The library's guard: a zero scale is replaced by 1 before dividing. -/
def handle_zeros_in_scale (s : ℚ) : ℚ := if s = 0 then 1 else s

/-- The guarded divisor used for column `j`. -/
def scaleCol (X : Mat) (j : Nat) : ℚ := handle_zeros_in_scale (listVar (matCol X j))

/-- The normalizer, `StandardScaler().fit_transform`: per-column standardization with the
zero-variance guard. -/
def StandardScaler.fit_transform (X : Mat) : Mat :=
  let d := matWidth X
  X.map (fun r =>
    (List.range d).map (fun j => (r.getD j 0 - listMean (matCol X j)) / scaleCol X j))

/-!
### Dimensionality reducer: `PCA(n_components=100)` (notebook lines 38-39, 65)

`fit` stores the column means of the fitted data and a components matrix
of shape `(n_components, n_features)` computed by an external SVD; the
SVD result is an explicit parameter.  `transform` maps a row `x` to
`(x - mean) @ componentsᵀ`; `inverse_transform` maps a reduced row `y`
back to `y @ components + mean`.
-/

/-- A fitted PCA model: learned basis rows and the fitted column means. -/
structure PCAModel where
  components : Mat
  mean : List ℚ
deriving DecidableEq

/-- The fit, `PCA.fit`: store the column means of `X` and the basis delivered by
the external SVD. -/
def PCA.fit (components : Mat) (X : Mat) : PCAModel :=
  ⟨components, (List.range (matWidth X)).map (fun j => listMean (matCol X j))⟩

/-- Transform one row: dot the centered row with each basis row. -/
def PCAModel.transformRow (m : PCAModel) (x : List ℚ) : List ℚ :=
  m.components.map (fun c => dotProduct (List.zipWith (· - ·) x m.mean) c)

/-- The projection, `pca.transform`: rowwise application onto the learned basis. -/
def PCAModel.transform (m : PCAModel) (X : Mat) : Mat := X.map m.transformRow

/-- Reconstruct one row: `y @ components + mean`, entry by entry. -/
def PCAModel.inverseTransformRow (m : PCAModel) (y : List ℚ) : List ℚ :=
  (List.range m.mean.length).map (fun j =>
    m.mean.getD j 0 + (List.zipWith (fun a c => a * c.getD j 0) y m.components).sum)

/-- The reconstruction, `pca.inverse_transform`: rowwise, from the learned basis. -/
def PCAModel.inverse_transform (m : PCAModel) (Y : Mat) : Mat :=
  Y.map m.inverseTransformRow

/-- Standard basis row `i` of length `n` (used as a concrete orthonormal
basis in witnesses). -/
def stdBasis (n i : Nat) : List ℚ :=
  (List.range n).map (fun j => if j = i then 1 else 0)

/-!
### Classifier: `SVC(kernel="rbf", C=5, gamma=0.05, random_state=42)`
(notebook lines 51-55, 82-87, 94, 101)

`fit` records the number of features of the training matrix
(`n_features_in_`) and a decision function produced by the external SMO
solver (an explicit parameter).  `predict` validates that the input rows
have exactly `n_features_in_` features — otherwise the library raises a
dimension-mismatch `ValueError`, modelled by `none` — and applies the
decision function rowwise.
-/

/-- Constructor arguments of `SVC` as used by the notebook. -/
structure SVCConfig where
  kernel : String
  C : ℚ
  gamma : ℚ
  random_state : Nat
deriving DecidableEq

/-- The configuration both classifiers are created with (lines 51, 82). -/
def svmConfig : SVCConfig := ⟨"rbf", 5, 1/20, 42⟩

/-- A fitted SVC: the recorded input width and the solver's decision
function. -/
structure FittedSVC where
  n_features_in : Nat
  decision : List ℚ → String

/-- The fit operation, `SVC(...).fit(X, y)`: record the training width and ask the external
solver for the decision function. -/
def SVC.fit (cfg : SVCConfig) (solver : SVCConfig → Mat → List String → (List ℚ → String))
    (X : Mat) (y : List String) : FittedSVC :=
  ⟨matWidth X, solver cfg X y⟩

/-- The prediction, `clf.predict(X)`: reject any row whose width differs from the fitted
width, else classify rowwise. -/
def FittedSVC.predict (m : FittedSVC) (X : Mat) : Option (List String) :=
  if X.all (fun r => r.length = m.n_features_in) then some (X.map m.decision)
  else none

/-!
### The notebook run (cells at lines 22-105)

One pure function mirroring the script line by line.  External inputs
are parameters: the fetched dataset (`mnistData`, `mnistTarget`), the
unseeded global generator's draw (`choiceIdx`, line 43), the seed-42
shuffle used by both `train_test_split` calls (`perm`; the shuffle
depends only on the seed and the row count, and both calls use
`random_state=42` on equally many rows), the SVD basis (`pcaComponents`)
and the two SMO solver results (`solver`).
-/

/-- All intermediate values of the notebook, under their source names. -/
structure RunResult where
  data : Mat
  pca : PCAModel
  data_pca : Mat
  indices : List Nat
  data_sampled : Mat
  target_sampled : List String
  X_train : Mat
  X_test : Mat
  y_train : List String
  y_test : List String
  svm_classifier : FittedSVC
  y_pred : Option (List String)
  accuracy : Option (Option ℚ)
  mnist_reconstructed : Mat
  data_original_sampled : Mat
  X_train_original : Mat
  X_test_original : Mat
  y_train_original : List String
  y_test_original : List String
  svm_classifier_original : FittedSVC
  y_pred_original : Option (List String)
  accuracy_original : Option (Option ℚ)
  y_train_pred_original : Option (List String)
  accuracy_train_original : Option (Option ℚ)
  y_train_pred_pca : Option (List String)
  accuracy_train_pca : Option (Option ℚ)

/-- The script, top to bottom.  Accuracies are `Option (Option ℚ)`: the
outer layer is `none` when the prediction step already failed, the inner
layer is `accuracy_score`'s own length check. -/
def notebookRun (mnistData : Mat) (mnistTarget : List String)
    (choiceIdx perm : List Nat) (pcaComponents : Mat)
    (solver : SVCConfig → Mat → List String → (List ℚ → String)) : RunResult :=
  let data := StandardScaler.fit_transform mnistData
  let pca := PCA.fit pcaComponents data
  let data_pca := pca.transform data
  let indices := choiceIdx
  let data_sampled := indices.map (fun i => data_pca.getD i default)
  let target_sampled := indices.map (fun i => mnistTarget.getD i default)
  let split1 := train_test_split data_sampled target_sampled perm
  let X_train := split1.1
  let X_test := split1.2.1
  let y_train := split1.2.2.1
  let y_test := split1.2.2.2
  let svm_classifier := SVC.fit svmConfig solver X_train y_train
  let y_pred := svm_classifier.predict X_test
  let accuracy := y_pred.map (fun yp => accuracy_score y_test yp)
  let mnist_reconstructed := pca.inverse_transform data_sampled
  let data_original_sampled := indices.map (fun i => data.getD i default)
  let split2 := train_test_split data_original_sampled target_sampled perm
  let X_train_original := split2.1
  let X_test_original := split2.2.1
  let y_train_original := split2.2.2.1
  let y_test_original := split2.2.2.2
  let svm_classifier_original := SVC.fit svmConfig solver X_train_original y_train_original
  let y_pred_original := svm_classifier_original.predict X_test_original
  let accuracy_original := y_pred_original.map (fun yp => accuracy_score y_test_original yp)
  let y_train_pred_original := svm_classifier_original.predict X_train_original
  let accuracy_train_original :=
    y_train_pred_original.map (fun yp => accuracy_score y_train_original yp)
  let y_train_pred_pca := svm_classifier.predict X_train
  let accuracy_train_pca := y_train_pred_pca.map (fun yp => accuracy_score y_train yp)
  ⟨data, pca, data_pca, indices, data_sampled, target_sampled,
   X_train, X_test, y_train, y_test, svm_classifier, y_pred, accuracy,
   mnist_reconstructed, data_original_sampled,
   X_train_original, X_test_original, y_train_original, y_test_original,
   svm_classifier_original, y_pred_original, accuracy_original,
   y_train_pred_original, accuracy_train_original,
   y_train_pred_pca, accuracy_train_pca⟩

/-!
### Mutation discipline of the script

A deep embedding of the script's effect structure: each named pipeline
value is an entity; each executable line contributes, in order, the
entities it creates, mutates (an in-place `fit`), or merely reads
(`transform`, `inverse_transform`, `predict`, indexing, scoring).  The
figure objects of the matplotlib cell render output and hold no pipeline
data; they are outside this model, as is the read-only `plt` display.
-/

/-- The named values of the script. -/
inductive Entity where
  | mnist | scaler | data | pca | data_pca | indices
  | data_sampled | target_sampled
  | X_train | X_test | y_train | y_test
  | svm_classifier | y_pred | accuracy
  | mnist_reconstructed
  | data_original_sampled
  | X_train_original | X_test_original | y_train_original | y_test_original
  | svm_classifier_original | y_pred_original | accuracy_original
  | y_train_pred_original | accuracy_train_original
  | y_train_pred_pca | accuracy_train_pca
deriving DecidableEq, Fintype

/-- An effect of one executable statement on one entity. -/
inductive Event where
  | create (e : Entity)
  | mutate (e : Entity)
  | read (e : Entity)
deriving DecidableEq

instance : Inhabited Event := ⟨Event.create Entity.mnist⟩

/-- The script's effect trace, statement by statement (source lines in
comments). -/
def scriptTrace : List Event :=
  [ -- line 31: mnist = datasets.fetch_openml(...)
   .create .mnist,
   -- line 34: scaler = StandardScaler()
   .create .scaler,
   -- line 35: data = scaler.fit_transform(mnist.data) — fits the scaler in place
   .read .mnist, .mutate .scaler, .read .scaler, .create .data,
   -- line 38: pca = PCA(n_components=100)
   .create .pca,
   -- line 39: data_pca = pca.fit_transform(data) — fits the PCA in place
   .read .data, .mutate .pca, .read .pca, .create .data_pca,
   -- line 43: indices = np.random.choice(data_pca.shape[0], sample_size, replace=False)
   .read .data_pca, .create .indices,
   -- line 44: data_sampled = data_pca[indices]
   .read .data_pca, .read .indices, .create .data_sampled,
   -- line 45: target_sampled = mnist.target[indices]
   .read .mnist, .read .indices, .create .target_sampled,
   -- line 48: X_train, X_test, y_train, y_test = train_test_split(...)
   .read .data_sampled, .read .target_sampled,
   .create .X_train, .create .X_test, .create .y_train, .create .y_test,
   -- line 51: svm_classifier = SVC(...)
   .create .svm_classifier,
   -- line 52: svm_classifier.fit(X_train, y_train)
   .read .X_train, .read .y_train, .mutate .svm_classifier,
   -- line 55: y_pred = svm_classifier.predict(X_test)
   .read .svm_classifier, .read .X_test, .create .y_pred,
   -- line 58: accuracy = accuracy_score(y_test, y_pred)
   .read .y_test, .read .y_pred, .create .accuracy,
   -- line 65: mnist_reconstructed = pca.inverse_transform(data_sampled)
   .read .pca, .read .data_sampled, .create .mnist_reconstructed,
   -- line 76: data_original_sampled = data[indices]
   .read .data, .read .indices, .create .data_original_sampled,
   -- line 79: X_train_original, ... = train_test_split(...)
   .read .data_original_sampled, .read .target_sampled,
   .create .X_train_original, .create .X_test_original,
   .create .y_train_original, .create .y_test_original,
   -- line 82: svm_classifier_original = SVC(...)
   .create .svm_classifier_original,
   -- line 83: svm_classifier_original.fit(X_train_original, y_train_original)
   .read .X_train_original, .read .y_train_original, .mutate .svm_classifier_original,
   -- line 87: y_pred_original = svm_classifier_original.predict(X_test_original)
   .read .svm_classifier_original, .read .X_test_original, .create .y_pred_original,
   -- line 90: accuracy_original = accuracy_score(y_test_original, y_pred_original)
   .read .y_test_original, .read .y_pred_original, .create .accuracy_original,
   -- line 94: y_train_pred_original = svm_classifier_original.predict(X_train_original)
   .read .svm_classifier_original, .read .X_train_original, .create .y_train_pred_original,
   -- line 97: accuracy_train_original = accuracy_score(...)
   .read .y_train_original, .read .y_train_pred_original, .create .accuracy_train_original,
   -- line 101: y_train_pred_pca = svm_classifier.predict(X_train)
   .read .svm_classifier, .read .X_train, .create .y_train_pred_pca,
   -- line 104: accuracy_train_pca = accuracy_score(y_train, y_train_pred_pca)
   .read .y_train, .read .y_train_pred_pca, .create .accuracy_train_pca]

/-- How often the trace mutates an entity. -/
def mutateCount (e : Entity) : Nat := scriptTrace.count (.mutate e)

/-- Trace positions at which an entity is created. -/
def createPositions (e : Entity) : List Nat :=
  (List.range scriptTrace.length).filter (fun i => scriptTrace.getD i default = .create e)

/-- Trace positions at which an entity is mutated. -/
def mutatePositions (e : Entity) : List Nat :=
  (List.range scriptTrace.length).filter (fun i => scriptTrace.getD i default = .mutate e)

/-- Trace positions at which an entity is read. -/
def readPositions (e : Entity) : List Nat :=
  (List.range scriptTrace.length).filter (fun i => scriptTrace.getD i default = .read e)

/-!
## Helper lemmas
-/

/-- The elementwise equality indicator sums to the number of matching
positions. -/
theorem indicator_sum_eq_matchCount (a b : List String) :
    (List.zipWith (fun x y => if x = y then (1 : ℚ) else 0) a b).sum
      = matchCount a b := by
  induction a generalizing b with
  | nil => simp [matchCount]
  | cons x xs ih =>
    cases b with
    | nil => simp [matchCount]
    | cons y ys =>
      simp only [matchCount, List.zip] at ih ⊢
      by_cases hxy : x = y
      · simp [List.filter, hxy, ih ys]
        ring
      · simp [List.filter, hxy, ih ys]

/-- Every entry of the equality indicator lies in [0, 1]. -/
theorem indicator_mem_bounds (a b : List String) :
    ∀ x ∈ List.zipWith (fun u v => if u = v then (1 : ℚ) else 0) a b,
      0 ≤ x ∧ x ≤ 1 := by
  induction a generalizing b with
  | nil => simp
  | cons u us ih =>
    cases b with
    | nil => simp
    | cons v vs =>
      intro x hx
      simp only [List.zipWith_cons_cons, List.mem_cons] at hx
      rcases hx with rfl | hx
      · split <;> norm_num
      · exact ih vs x hx

/-- The equality-indicator sum is nonnegative. -/
theorem indicator_sum_nonneg (a b : List String) :
    0 ≤ (List.zipWith (fun x y => if x = y then (1 : ℚ) else 0) a b).sum :=
  List.sum_nonneg (fun x hx => (indicator_mem_bounds a b x hx).1)

/-- The equality-indicator sum is at most the number of compared positions. -/
theorem indicator_sum_le_length (a b : List String) :
    (List.zipWith (fun x y => if x = y then (1 : ℚ) else 0) a b).sum
      ≤ (List.zipWith (fun x y => if x = y then (1 : ℚ) else 0) a b).length := by
  have h := List.sum_le_card_nsmul
    (List.zipWith (fun x y => if x = y then (1 : ℚ) else 0) a b) 1
    (fun x hx => (indicator_mem_bounds a b x hx).2)
  simpa using h

/-- Claim C4: on equal-length label vectors the evaluator returns exactly the
fraction of matching positions, and every returned score lies in [0, 1]. -/
theorem accuracy_score_fraction_and_bounds (y_true y_pred : List String)
    (h : y_true.length = y_pred.length) :
    accuracy_score y_true y_pred
        = some ((matchCount y_true y_pred : ℚ) / y_true.length) ∧
    ∀ q : ℚ, accuracy_score y_true y_pred = some q → 0 ≤ q ∧ q ≤ 1 := by
  constructor
  · simp [accuracy_score, h, indicator_sum_eq_matchCount]
  · intro q hq
    simp only [accuracy_score, h, if_pos] at hq
    rw [Option.some_inj] at hq
    subst hq
    constructor
    · exact div_nonneg (indicator_sum_nonneg _ _) (by positivity)
    · apply div_le_one_of_le₀
      · calc (List.zipWith (fun x y => if x = y then (1 : ℚ) else 0) y_true y_pred).sum
            ≤ _ := indicator_sum_le_length y_true y_pred
          _ ≤ (y_pred.length : ℚ) := by
              rw [List.length_zipWith]
              exact Nat.cast_le.mpr (min_le_right _ _)
      · positivity

/-- Witness for C4 at a concrete pair of label vectors. -/
theorem accuracy_score_fraction_and_bounds_witness :
    accuracy_score ["3", "7", "1"] ["3", "2", "1"]
        = some ((matchCount ["3", "7", "1"] ["3", "2", "1"] : ℚ)
                / (["3", "7", "1"] : List String).length) ∧
    ∀ q : ℚ, accuracy_score ["3", "7", "1"] ["3", "2", "1"] = some q →
      0 ≤ q ∧ q ≤ 1 :=
  accuracy_score_fraction_and_bounds ["3", "7", "1"] ["3", "2", "1"] rfl

/-- Claim C2: a reduction model with 100 basis rows produces, on any input
matrix, one output row per input row, each of exactly 100 columns. -/
theorem pca_transform_column_count (m : PCAModel) (X : Mat)
    (h : m.components.length = 100) :
    (m.transform X).length = X.length ∧
    ∀ row ∈ m.transform X, row.length = 100 := by
  constructor
  · simp [PCAModel.transform]
  · intro row hr
    simp only [PCAModel.transform, List.mem_map] at hr
    obtain ⟨x, _, rfl⟩ := hr
    simp [PCAModel.transformRow, h]

/-- A concrete 100-component model for the C2 witness. -/
def pcaWitnessModel : PCAModel := ⟨List.replicate 100 [1], [0]⟩

/-- Witness for C2 on a 3-row input. -/
theorem pca_transform_column_count_witness :
    ((pcaWitnessModel.transform [[3], [4], [5]]).length
        = ([[3], [4], [5]] : Mat).length) ∧
    ∀ row ∈ pcaWitnessModel.transform [[3], [4], [5]], row.length = 100 :=
  pca_transform_column_count pcaWitnessModel [[3], [4], [5]]
    (by simp [pcaWitnessModel])

/-- Claim C7: a classifier fitted on width-`d` features rejects prediction
inputs whose rows have width `d' ≠ d` with an error (`none`) instead of
returning labels. -/
theorem svc_predict_dimension_mismatch (cfg : SVCConfig)
    (solver : SVCConfig → Mat → List String → (List ℚ → String))
    (X : Mat) (y : List String) (Xp : Mat) (d dp : Nat)
    (hfit : matWidth X = d) (hrows : ∀ r ∈ Xp, r.length = dp)
    (hne : dp ≠ d) (hnonempty : Xp ≠ []) :
    (SVC.fit cfg solver X y).predict Xp = none := by
  obtain ⟨r, hr⟩ := List.exists_mem_of_ne_nil Xp hnonempty
  simp only [FittedSVC.predict, SVC.fit, ite_eq_right_iff]
  intro hall
  rw [List.all_eq_true] at hall
  have := hall r hr
  simp [hrows r hr, hfit, hne] at this

/-- Witness for C7: fit on width 2, predict on width 3. -/
theorem svc_predict_dimension_mismatch_witness :
    (SVC.fit svmConfig (fun _ _ _ => fun _ => "0") [[1, 2]] ["7"]).predict
        [[1, 2, 3]] = none :=
  svc_predict_dimension_mismatch svmConfig (fun _ _ _ => fun _ => "0")
    [[1, 2]] ["7"] [[1, 2, 3]] 2 3 rfl (by simp) (by norm_num) (by simp)

/-- Claim C5: for a seed-determined shuffle of `range n`, the test and train
index sets are disjoint, together they are exactly the sampled row indices,
the test set has `ceil(0.2 * n)` members — exactly a 0.2 fraction whenever 5
divides n (as it does for the notebook's n = 70000) — and the two data
partitions cover all n rows. -/
theorem train_test_split_partition_invariants (n : Nat) (perm : List Nat)
    (hp : perm.Perm (List.range n)) :
    List.Disjoint (test_indices n perm) (train_indices n perm) ∧
    (test_indices n perm ++ train_indices n perm).Perm (List.range n) ∧
    (test_indices n perm).length = nTest n ∧
    (∀ (X : Mat) (y : List String), X.length = n →
      (train_test_split X y perm).1.length
        + (train_test_split X y perm).2.1.length = n) ∧
    (5 ∣ n → (test_indices n perm).length * 5 = n) := by
  have hlen : perm.length = n := by simpa using hp.length_eq
  have hnd : perm.Nodup := hp.nodup_iff.mpr (List.nodup_range n)
  have happend : test_indices n perm ++ train_indices n perm = perm :=
    List.take_append_drop _ _
  have htake : (test_indices n perm).length = nTest n := by
    rw [test_indices, List.length_take, hlen]
    unfold nTest
    omega
  refine ⟨?_, ?_, htake, ?_, ?_⟩
  · have h2 : (test_indices n perm ++ train_indices n perm).Nodup := by
      rw [happend]; exact hnd
    exact (List.nodup_append.mp h2).2.2
  · rw [happend]; exact hp
  · intro X y hX
    simp only [train_test_split, List.length_map, test_indices, train_indices,
      List.length_take, List.length_drop, hX, hlen]
    unfold nTest
    omega
  · intro hdvd
    rw [htake]
    unfold nTest
    obtain ⟨m, rfl⟩ := hdvd
    omega

/-- Witness for C5 with n = 5 and a concrete shuffle. -/
theorem train_test_split_partition_invariants_witness :
    List.Disjoint (test_indices 5 [2, 0, 4, 1, 3]) (train_indices 5 [2, 0, 4, 1, 3]) ∧
    (test_indices 5 [2, 0, 4, 1, 3] ++ train_indices 5 [2, 0, 4, 1, 3]).Perm
      (List.range 5) ∧
    (test_indices 5 [2, 0, 4, 1, 3]).length = nTest 5 ∧
    (∀ (X : Mat) (y : List String), X.length = 5 →
      (train_test_split X y [2, 0, 4, 1, 3]).1.length
        + (train_test_split X y [2, 0, 4, 1, 3]).2.1.length = 5) ∧
    (5 ∣ 5 → (test_indices 5 [2, 0, 4, 1, 3]).length * 5 = 5) :=
  train_test_split_partition_invariants 5 [2, 0, 4, 1, 3] (by decide)

/-- Claim C10: both pipelines index the dataset with the same sampled index
array and split with the same seed-determined shuffle, so their train label
vectors coincide and their test label vectors coincide. -/
theorem pipelines_share_labels (mnistData : Mat) (mnistTarget : List String)
    (choiceIdx perm : List Nat) (pcaComponents : Mat)
    (solver : SVCConfig → Mat → List String → (List ℚ → String)) :
    (notebookRun mnistData mnistTarget choiceIdx perm pcaComponents solver).y_train_original
      = (notebookRun mnistData mnistTarget choiceIdx perm pcaComponents solver).y_train ∧
    (notebookRun mnistData mnistTarget choiceIdx perm pcaComponents solver).y_test_original
      = (notebookRun mnistData mnistTarget choiceIdx perm pcaComponents solver).y_test := by
  constructor <;> simp [notebookRun, train_test_split, List.length_map]

/-- Reading position `j < d` of a map over `range d` gives the function
value at `j`. -/
theorem getD_map_range (d j : Nat) (f : Nat → ℚ) (h : j < d) :
    ((List.range d).map f).getD j 0 = f j := by
  have hlt : j < ((List.range d).map f).length := by simpa using h
  rw [List.getD_eq_getElem _ _ hlt]
  simp

/-- The mean of a nonempty constant list is that constant. -/
theorem listMean_of_constant (l : List ℚ) (c : ℚ) (hne : l ≠ [])
    (h : ∀ x ∈ l, x = c) : listMean l = c := by
  have hsum : l.sum = l.length • c := List.sum_eq_card_nsmul l c h
  unfold listMean
  rw [hsum, nsmul_eq_mul]
  have hlen : (l.length : ℚ) ≠ 0 := by
    exact_mod_cast Nat.pos_iff_ne_zero.mp (List.length_pos.mpr hne)
  field_simp

/-- Claim C6: the normalizer's guarded divisor is never zero — in particular
a zero-variance column divides by the guard value 1, not 0 — and a constant
feature column standardizes to 0 in every row instead of propagating NaN. -/
theorem standard_scaler_zero_variance_guard (X : Mat) (c : ℚ) (j : Nat)
    (hj : j < matWidth X) (hconst : ∀ r ∈ X, r.getD j 0 = c) :
    (∀ i, scaleCol X i ≠ 0) ∧
    (∀ r ∈ StandardScaler.fit_transform X, r.getD j 0 = 0) := by
  constructor
  · intro i
    unfold scaleCol handle_zeros_in_scale
    split
    · norm_num
    · assumption
  · intro r hr
    simp only [StandardScaler.fit_transform, List.mem_map] at hr
    obtain ⟨r0, hr0, rfl⟩ := hr
    rw [getD_map_range _ _ _ hj]
    have hXne : X ≠ [] := List.ne_nil_of_mem hr0
    have hcol : ∀ x ∈ matCol X j, x = c := by
      intro x hx
      simp only [matCol, List.mem_map] at hx
      obtain ⟨r1, hr1, rfl⟩ := hx
      exact hconst r1 hr1
    have hcolne : matCol X j ≠ [] := by
      simp [matCol, hXne]
    rw [listMean_of_constant _ c hcolne hcol, hconst r0 hr0, sub_self, zero_div]

/-- Witness for C6 on a 2 x 2 matrix whose first column is constant. -/
theorem standard_scaler_zero_variance_guard_witness :
    (∀ i, scaleCol [[2, 3], [2, 4]] i ≠ 0) ∧
    (∀ r ∈ StandardScaler.fit_transform [[2, 3], [2, 4]], r.getD 0 0 = 0) :=
  standard_scaler_zero_variance_guard [[2, 3], [2, 4]] 2 0 (by decide) (by decide)

/-- Subtracting a zero vector of matching length is the identity. -/
theorem zipWith_sub_replicate_zero (l : List ℚ) :
    List.zipWith (· - ·) l (List.replicate l.length 0) = l := by
  induction l with
  | nil => rfl
  | cons x xs ih => simp [List.replicate_succ, ih]

/-- A dot product of two maps over the same `range` is the sum of the
pointwise products. -/
theorem dotProduct_map_range (n : Nat) (f g : Nat → ℚ) :
    dotProduct ((List.range n).map f) ((List.range n).map g)
      = ((List.range n).map (fun i => f i * g i)).sum := by
  unfold dotProduct
  rw [List.zipWith_map_left, List.zipWith_map_right, List.zipWith_same]

/-- A concrete fitted reduction model: the first 100 standard basis
directions of a 784-dimensional space, zero mean (an orthonormal basis a
PCA fit can produce). -/
def lossyModel : PCAModel :=
  ⟨(List.range 100).map (stdBasis 784), List.replicate 784 0⟩

/-- The 784-dimensional input the model cannot reconstruct: the 101st
standard basis vector, orthogonal to all 100 retained directions. -/
def lossyInput : List ℚ := stdBasis 784 100

/-- The lossy model sends `lossyInput` to the zero vector of length 100. -/
theorem lossyModel_transformRow :
    lossyModel.transformRow lossyInput = (List.range 100).map (fun _ => (0 : ℚ)) := by
  unfold lossyModel lossyInput PCAModel.transformRow
  have hx : (stdBasis 784 100).length = 784 := by
    rw [stdBasis, List.length_map, List.length_range]
  rw [show (List.replicate 784 (0 : ℚ)) = List.replicate (stdBasis 784 100).length 0 by
        rw [hx],
      zipWith_sub_replicate_zero, List.map_map]
  apply List.map_congr_left
  intro i hi
  have hilt : i < 100 := List.mem_range.mp hi
  simp only [Function.comp]
  rw [stdBasis, stdBasis, dotProduct_map_range]
  apply List.sum_eq_zero
  intro a ha
  simp only [List.mem_map, List.mem_range] at ha
  obtain ⟨j, _, rfl⟩ := ha
  by_cases hj1 : j = 100
  · subst hj1
    have : (100 : Nat) ≠ i := by omega
    simp [this]
  · simp [hj1]

/-- The lossy model reconstructs the zero reduced vector as the zero
vector of length 784. -/
theorem lossyModel_inverseTransformRow :
    lossyModel.inverseTransformRow ((List.range 100).map (fun _ => (0 : ℚ)))
      = (List.range 784).map (fun _ => (0 : ℚ)) := by
  unfold lossyModel PCAModel.inverseTransformRow
  simp only [List.length_replicate]
  apply List.map_congr_left
  intro j hj
  have hjlt : j < 784 := List.mem_range.mp hj
  have h1 : (List.replicate 784 (0 : ℚ)).getD j 0 = 0 := by
    have hlt : j < (List.replicate 784 (0 : ℚ)).length := by
      rw [List.length_replicate]; exact hjlt
    rw [List.getD_eq_getElem _ _ hlt, List.getElem_replicate]
  rw [h1, List.zipWith_map_left, List.zipWith_map_right, List.zipWith_same]
  rw [zero_add]
  apply List.sum_eq_zero
  intro a ha
  simp only [List.mem_map] at ha
  obtain ⟨i, _, rfl⟩ := ha
  exact zero_mul _

/-- Claim C3: reconstruction restores the raw dimensionality — every
reconstructed row of a model with 784 fitted means has 784 entries — and the
reduce-reconstruct round trip is lossy: a valid 100-of-784 model maps a
nonzero input to a reconstruction that differs from it. -/
theorem pca_inverse_transform_dimension_and_lossy :
    (∀ (m : PCAModel) (Y : Mat), m.mean.length = 784 →
       ∀ row ∈ m.inverse_transform Y, row.length = 784) ∧
    (∃ (m : PCAModel) (x : List ℚ),
       m.components.length = 100 ∧ (∀ c ∈ m.components, c.length = 784) ∧
       m.mean.length = 784 ∧ x.length = 784 ∧
       (m.transformRow x).length = 100 ∧
       m.inverseTransformRow (m.transformRow x) ≠ x) := by
  constructor
  · intro m Y hm row hrow
    simp only [PCAModel.inverse_transform, List.mem_map] at hrow
    obtain ⟨y, _, rfl⟩ := hrow
    rw [PCAModel.inverseTransformRow, List.length_map, List.length_range, hm]
  · refine ⟨lossyModel, lossyInput, ?_, ?_, ?_, ?_, ?_, ?_⟩
    · rw [lossyModel, List.length_map, List.length_range]
    · intro c hc
      simp only [lossyModel, List.mem_map] at hc
      obtain ⟨i, _, rfl⟩ := hc
      rw [stdBasis, List.length_map, List.length_range]
    · rw [lossyModel, List.length_replicate]
    · rw [lossyInput, stdBasis, List.length_map, List.length_range]
    · rw [lossyModel_transformRow, List.length_map, List.length_range]
    · rw [lossyModel_transformRow, lossyModel_inverseTransformRow]
      intro heq
      have h100 : ((List.range 784).map (fun _ => (0 : ℚ))).getD 100 0
          = lossyInput.getD 100 0 := by rw [heq]
      rw [getD_map_range _ _ _ (by norm_num)] at h100
      rw [lossyInput, stdBasis, getD_map_range _ _ _ (by norm_num)] at h100
      simp at h100

/-- A 5-row dataset for exercising the sampling stage. -/
def c1Data : Mat := [[10], [11], [12], [13], [14]]

/-- Its labels. -/
def c1Labels : List String := ["0", "1", "2", "3", "4"]

set_option maxRecDepth 4000 in
/-- Claim C1 fails on the code: the notebook never seeds the global
generator behind `np.random.choice` (line 43), so two runs with identical
split seed, sample size and fraction can draw different index orders.
Concretely, on a 5-row dataset with full sample size, the ambient-state
draws `[0,1,2,3,4]` and `[4,3,2,1,0]` are both valid, yet whatever
permutation the seed determines for the splitter (every element of
`permutations'` of `range 5`, i.e. every possible shuffle), the two runs
produce different train/test partitions. -/
theorem sampling_stage_not_determined_by_seed :
    validChoice 5 5 [0, 1, 2, 3, 4] ∧ validChoice 5 5 [4, 3, 2, 1, 0] ∧
    ∀ perm ∈ (List.range 5).permutations',
      sampleAndSplitStage c1Data c1Labels [0, 1, 2, 3, 4] perm ≠
      sampleAndSplitStage c1Data c1Labels [4, 3, 2, 1, 0] perm := by
  decide

/-- Claim C8 fails as stated: the scaler — an entity of the workflow that is
neither the reduction model nor a classifier — is mutated (fit in place) by
`scaler.fit_transform` at line 35 after its creation at line 34. -/
theorem scaler_mutation_counterexample :
    0 < mutateCount Entity.scaler ∧
    Entity.scaler ≠ Entity.pca ∧
    Entity.scaler ≠ Entity.svm_classifier ∧
    Entity.scaler ≠ Entity.svm_classifier_original := by
  decide

/-- Claim C8, amended: the only entities the script ever mutates are the
normalizer, the reduction model and the two classifiers; each is mutated at
most once (the single unfit-to-fit transition), every mutation follows the
entity's creation, and every read of an ever-mutated entity — the PCA
transform and inverse-transform, and every prediction — happens after its one
fit, so all post-fit uses see the same learned state and prediction never
alters a fitted model. -/
theorem entity_mutation_discipline :
    (∀ e : Entity, 0 < mutateCount e ↔
       (e = Entity.scaler ∨ e = Entity.pca ∨ e = Entity.svm_classifier ∨
        e = Entity.svm_classifier_original)) ∧
    (∀ e : Entity, mutateCount e ≤ 1) ∧
    (∀ e : Entity, ∀ i ∈ createPositions e, ∀ j ∈ mutatePositions e, i < j) ∧
    (∀ e : Entity, ∀ i ∈ mutatePositions e, ∀ j ∈ readPositions e, i < j) := by
  decide
